import Mathlib

/-!
Verification of the fsp-srv filesystem service layer
(src/core/hle/service/filesystem/fsp_srv.cpp).

Each IPC command handler is embedded as a pure Lean function from its
decoded arguments and the backend's behaviour to a response record that
captures everything observable at the protocol boundary: the pushed
status code, the scalar results, the bytes written to the caller's
output buffer, whether the backend was invoked, and any child service
object attached to the reply.

Backends are external collaborators, so handlers take them as function
arguments; a backend read returns either a failure code or the list of
bytes it wrote into the supplied buffer (its length is the reported
count).
-/

set_option linter.unusedVariables false

namespace FspSrv

/-- Error descriptions this layer emits itself (ErrorModule::FS codes). -/
inductive ErrorDescription where
  | invalidOffset
  | invalidLength
deriving DecidableEq, Repr

/-- Status codes crossing the protocol boundary. RESULT_SUCCESS is
success; fsError is a ResultCode built from ErrorModule::FS and one of
this layer's own descriptions; generic is ResultCode(-1); backendError
stands for an arbitrary backend-originated failure code, passed through
unmodified. -/
inductive ResultCode where
  | success
  | fsError (d : ErrorDescription)
  | generic
  | backendError (n : Nat)
deriving DecidableEq, Repr

def ResultCode.isSuccess : ResultCode → Bool
  | .success => true
  | _ => false

/-- Writing a byte list into a freshly zero-initialized buffer of n
bytes: the source bytes occupy the front, the remainder stays zero.
This models declaring std::vector of u8 with size n and having the
backend memcpy its bytes at the start. -/
def fillBuffer (n : Nat) (bytes : List Nat) : List Nat :=
  bytes.take n ++ List.replicate (n - bytes.length) 0

/-- Observable reply of a storage or file Read handler: status, bytes
written back to the guest output buffer (none when the handler returned
before WriteBuffer), scalar results pushed after the status, and
whether the backend was invoked. -/
structure ReadResponse where
  status : ResultCode
  output : Option (List Nat)
  scalars : List Nat
  backendInvoked : Bool
deriving DecidableEq, Repr

/-- IStorage::Read: pops s64 offset and length, validates length then
offset, allocates a length-byte vector, calls backend Read, and on
success writes the whole vector back with no scalar results. -/
def IStorage.Read (backend : Int → Int → Except ResultCode (List Nat))
    (offset length : Int) : ReadResponse :=
  if length < 0 then
    ⟨ResultCode.fsError .invalidLength, none, [], false⟩
  else if offset < 0 then
    ⟨ResultCode.fsError .invalidOffset, none, [], false⟩
  else
    match backend offset length with
    | .error code => ⟨code, none, [], true⟩
    | .ok bytes => ⟨ResultCode.success, some (fillBuffer length.toNat bytes), [], true⟩

/-- IFile::Read: pops u64 unk, s64 offset and length, validates as
IStorage::Read, allocates a length-byte vector, calls backend Read, and
on success writes the whole vector back and pushes the backend-reported
count as a u64 scalar. -/
def IFile.Read (backend : Int → Int → Except ResultCode (List Nat))
    (unk : Nat) (offset length : Int) : ReadResponse :=
  if length < 0 then
    ⟨ResultCode.fsError .invalidLength, none, [], false⟩
  else if offset < 0 then
    ⟨ResultCode.fsError .invalidOffset, none, [], false⟩
  else
    match backend offset length with
    | .error code => ⟨code, none, [], true⟩
    | .ok bytes =>
      ⟨ResultCode.success, some (fillBuffer length.toNat bytes), [bytes.length], true⟩

/-- Observable reply of a handler with no output buffer: status plus
whether the backend was invoked. -/
structure StatusResponse where
  status : ResultCode
  backendInvoked : Bool
deriving DecidableEq, Repr

/-- IFile::Write: pops u64 unk, s64 offset and length, validates as the
reads do, then reads the input buffer and forwards it to backend Write
with the always-true flag. -/
def IFile.Write (backend : Int → Int → Bool → List Nat → Except ResultCode Nat)
    (unk : Nat) (offset length : Int) (data : List Nat) : StatusResponse :=
  if length < 0 then
    ⟨ResultCode.fsError .invalidLength, false⟩
  else if offset < 0 then
    ⟨ResultCode.fsError .invalidOffset, false⟩
  else
    match backend offset length true data with
    | .error code => ⟨code, true⟩
    | .ok _ => ⟨ResultCode.success, true⟩

/-- IFile::Flush: calls backend Flush, discards its result, replies
success. -/
def IFile.Flush (backendResult : Bool) : StatusResponse :=
  ⟨ResultCode.success, true⟩

/-- IFile::SetSize: pops u64 size, calls backend SetSize, discards its
result, replies success. -/
def IFile.SetSize (size : Nat) (backendResult : Bool) : StatusResponse :=
  ⟨ResultCode.success, true⟩

/-- Observable reply of IDirectory::Read: status, bytes written to the
guest output buffer, the u64 entry count pushed as scalar result, and
the maximum entry count the handler asked the backend for. -/
structure DirReadResponse where
  status : ResultCode
  output : Option (List Nat)
  countScalar : Nat
  requestedMax : Nat
deriving DecidableEq, Repr

/-- IDirectory::Read: computes count_entries as the output buffer size
divided by the entry record size, allocates a vector of that many
zero-initialized entry records, asks the backend to fill up to
count_entries of them (the backend returns the records it produced, at
most count_entries, each of entrySize bytes), then memcpys the whole
vector into a byte array and writes it back, pushing the produced count
as scalar. -/
def IDirectory.Read (entrySize bufSize : Nat)
    (backend : Nat → List (List Nat)) (unk : Nat) : DirReadResponse :=
  let countEntries := bufSize / entrySize
  let produced := backend countEntries
  ⟨ResultCode.success,
   some (fillBuffer (countEntries * entrySize) produced.flatten),
   produced.length,
   countEntries⟩

/-- Path decoding used by every IFileSystem command: the input buffer
truncated at the first zero byte; bytes after the terminator are
ignored. -/
def pathOf (buffer : List Nat) : List Nat :=
  buffer.takeWhile (· ≠ 0)

/-- Observable reply of IFileSystem::CreateFile: the pushed status and
the arguments actually handed to backend CreateFile (path and size; the
decoded mode is not among them). -/
structure CreateFileResponse where
  status : ResultCode
  backendCall : Option (List Nat × Nat)
deriving DecidableEq, Repr

/-- IFileSystem::CreateFile: reads the input buffer, truncates the path
at the first zero byte, pops u64 mode and u32 size, and pushes the
status of backend CreateFile called with the path and size only. -/
def IFileSystem.CreateFile (backend : List Nat → Nat → ResultCode)
    (buffer : List Nat) (mode : Nat) (size : Nat) : CreateFileResponse :=
  ⟨backend (pathOf buffer) size, some (pathOf buffer, size)⟩

/-- Observable reply of IFileSystem::OpenFile: the pushed status and
the child file object attached to the reply, carrying the
backend-returned handle (none when no object was pushed). -/
structure OpenFileResponse (F : Type) where
  status : ResultCode
  fileObject : Option F
deriving DecidableEq, Repr

/-- IFileSystem::OpenFile: decodes the zero-terminated path and the u32
mode, calls backend OpenFile; on failure pushes the backend code and
returns, otherwise unwraps the handle into a new IFile object pushed
with success. -/
def IFileSystem.OpenFile {F : Type}
    (backend : List Nat → Nat → Except ResultCode F)
    (buffer : List Nat) (mode : Nat) : OpenFileResponse F :=
  match backend (pathOf buffer) mode with
  | .error code => ⟨code, none⟩
  | .ok f => ⟨ResultCode.success, some f⟩

/-- FSP_SRV::TryLoadRomFS: when the romfs cache already holds a
filesystem it returns at once without touching the backend; otherwise
it calls OpenFileSystem for RomFS (the call's result is the second
argument), stores the filesystem on success and leaves the cache empty
on failure. Returns the new cache state and whether the backend open
was invoked. -/
def FSP_SRV.TryLoadRomFS {F : Type} (romfs : Option F)
    (openResult : Except ResultCode F) : Option F × Bool :=
  match romfs with
  | some fs => (some fs, false)
  | none =>
    match openResult with
    | .ok fs => (some fs, true)
    | .error _ => (none, true)

/-- Observable reply of OpenDataStorageByCurrentProcess: the pushed
status and the child IStorage object carrying the storage handle. -/
structure OdsResponse (S : Type) where
  status : ResultCode
  storageObject : Option S
deriving DecidableEq, Repr

/-- FSP_SRV::OpenDataStorageByCurrentProcess: runs TryLoadRomFS; if the
cache is still empty it pushes ResultCode(-1); otherwise it opens a
whole-archive storage view on the cached filesystem with empty path and
mode, pushing the backend failure code or a new IStorage object with
success. Returns the new cache state, whether the archive open was
invoked, and the reply. -/
def FSP_SRV.OpenDataStorageByCurrentProcess {F S : Type} (romfs : Option F)
    (openResult : Except ResultCode F)
    (openStorage : F → Except ResultCode S) : Option F × Bool × OdsResponse S :=
  let p := FSP_SRV.TryLoadRomFS romfs openResult
  match p.1 with
  | none => (none, p.2, ⟨ResultCode.generic, none⟩)
  | some fs =>
    match openStorage fs with
    | .error code => (p.1, p.2, ⟨code, none⟩)
    | .ok s => (p.1, p.2, ⟨ResultCode.success, some s⟩)

/-- FSP_SRV::OpenRomStorage: stubbed alias that re-executes
OpenDataStorageByCurrentProcess on the same context. -/
def FSP_SRV.OpenRomStorage {F S : Type} (romfs : Option F)
    (openResult : Except ResultCode F)
    (openStorage : F → Except ResultCode S) : Option F × Bool × OdsResponse S :=
  FSP_SRV.OpenDataStorageByCurrentProcess romfs openResult openStorage

/-- A sequence of OpenDataStorageByCurrentProcess calls on one FSP_SRV
instance, starting from a given romfs cache state; the i-th list
element is the result the backend archive-open would deliver if asked
on the i-th call. Returns the final cache state and the total number of
backend archive-open invocations. -/
def runOds {F S : Type} (openStorage : F → Except ResultCode S) :
    Option F → List (Except ResultCode F) → Option F × Nat
  | st, [] => (st, 0)
  | st, r :: rs =>
    let p := FSP_SRV.OpenDataStorageByCurrentProcess st r openStorage
    let q := runOds openStorage p.1 rs
    (q.1, (if p.2.1 then 1 else 0) + q.2)

/-- The first successful backend archive-open result in a call
sequence, if any. -/
def firstOk {F : Type} : List (Except ResultCode F) → Option F
  | [] => none
  | .ok f :: _ => some f
  | .error _ :: rs => firstOk rs

/-- One backend archive-open per call up to and including the first
successful one: every failed call before the first success retries the
open, and no call after the first success opens again. -/
def opensUntilFirstSuccess {F : Type} : List (Except ResultCode F) → Nat
  | [] => 0
  | .ok _ :: _ => 1
  | .error _ :: rs => 1 + opensUntilFirstSuccess rs

/-- Outcome of a mount handler at the protocol boundary: either a reply
carrying a status code and possibly a child IFileSystem object, or an
assertion failure inside ResultVal::Unwrap that produces no reply at
all. -/
inductive MountOutcome (F : Type) where
  | reply (status : ResultCode) (fsObject : Option F)
  | assertionFailure
deriving DecidableEq, Repr

/-- Modelled from the spec: ResultVal::Unwrap lives in
core/hle/result.h, which is not among the provided sources. Its
contract in this repository is to require an already-succeeded result:
called on a failed one it raises an assertion failure, so control never
reaches a ResponseBuilder and no status code crosses the protocol
boundary. FSP_SRV::MountSdCard calls OpenFileSystem for SDMC and
unwraps the result with no failure check before pushing success and the
new IFileSystem object. -/
def FSP_SRV.MountSdCard {F : Type}
    (openResult : Except ResultCode F) : MountOutcome F :=
  match openResult with
  | .ok fs => .reply ResultCode.success (some fs)
  | .error _ => .assertionFailure

/-- Modelled from the spec: same shape as FSP_SRV::MountSdCard (see its
comment on the unchecked ResultVal::Unwrap from core/hle/result.h);
MountSaveData opens the SaveData filesystem instead. -/
def FSP_SRV.MountSaveData {F : Type}
    (openResult : Except ResultCode F) : MountOutcome F :=
  match openResult with
  | .ok fs => .reply ResultCode.success (some fs)
  | .error _ => .assertionFailure

/-- Observable reply of FSP_SRV::CreateSaveData: the pushed status and
whether any backend operation was invoked. -/
structure CreateSaveDataResponse where
  status : ResultCode
  backendInvoked : Bool
deriving DecidableEq, Repr

/-- FSP_SRV::CreateSaveData: pops a 0x40-byte save descriptor, a
0x40-byte create descriptor and a u128 user id, logs, and pushes
success without calling any backend. -/
def FSP_SRV.CreateSaveData (saveStruct saveCreateStruct : List Nat)
    (uid : Nat × Nat) : CreateSaveDataResponse :=
  ⟨ResultCode.success, false⟩

/-- Filling a zeroed buffer with at most its size of bytes keeps the
bytes in front and zero pads the rest. -/
theorem fillBuffer_of_le {n : Nat} {bytes : List Nat} (h : bytes.length ≤ n) :
    fillBuffer n bytes = bytes ++ List.replicate (n - bytes.length) 0 := by
  unfold fillBuffer
  rw [List.take_of_length_le h]

/-- The flattening of uniformly sized records has length count times
record size. -/
theorem flatten_length_uniform {L : List (List Nat)} {k : Nat}
    (h : ∀ e ∈ L, e.length = k) : L.flatten.length = L.length * k := by
  induction L with
  | nil => simp
  | cons a t ih =>
    simp only [List.flatten_cons, List.length_append, List.length_cons]
    rw [h a (by simp), ih (fun e he => h e (by simp [he]))]
    ring

/-- C5: for Storage Read, File Read and File Write, a negative length
yields InvalidLength and, when length is non-negative, a negative
offset yields InvalidOffset; in both cases the backend is not invoked
and nothing is written to the output buffer. -/
theorem read_write_validation
    (sb fb : Int → Int → Except ResultCode (List Nat))
    (wb : Int → Int → Bool → List Nat → Except ResultCode Nat)
    (unk : Nat) (offset length : Int) (data : List Nat) :
    (length < 0 →
      IStorage.Read sb offset length = ⟨ResultCode.fsError .invalidLength, none, [], false⟩ ∧
      IFile.Read fb unk offset length = ⟨ResultCode.fsError .invalidLength, none, [], false⟩ ∧
      IFile.Write wb unk offset length data = ⟨ResultCode.fsError .invalidLength, false⟩) ∧
    (0 ≤ length → offset < 0 →
      IStorage.Read sb offset length = ⟨ResultCode.fsError .invalidOffset, none, [], false⟩ ∧
      IFile.Read fb unk offset length = ⟨ResultCode.fsError .invalidOffset, none, [], false⟩ ∧
      IFile.Write wb unk offset length data = ⟨ResultCode.fsError .invalidOffset, false⟩) := by
  constructor
  · intro h
    refine ⟨?_, ?_, ?_⟩ <;> simp [IStorage.Read, IFile.Read, IFile.Write, h]
  · intro h0 h1
    refine ⟨?_, ?_, ?_⟩ <;>
      simp [IStorage.Read, IFile.Read, IFile.Write, h1, not_lt.2 h0]

/-- C5 witness: concrete invalid requests hit both validation branches
with the backend untouched. -/
theorem read_write_validation_witness :
    (IStorage.Read (fun _ _ => Except.ok []) 3 (-1) =
       ⟨ResultCode.fsError .invalidLength, none, [], false⟩ ∧
     IFile.Read (fun _ _ => Except.ok []) 0 3 (-1) =
       ⟨ResultCode.fsError .invalidLength, none, [], false⟩ ∧
     IFile.Write (fun _ _ _ _ => Except.ok 0) 0 3 (-1) [] =
       ⟨ResultCode.fsError .invalidLength, false⟩) ∧
    (IStorage.Read (fun _ _ => Except.ok []) (-2) 5 =
       ⟨ResultCode.fsError .invalidOffset, none, [], false⟩ ∧
     IFile.Read (fun _ _ => Except.ok []) 0 (-2) 5 =
       ⟨ResultCode.fsError .invalidOffset, none, [], false⟩ ∧
     IFile.Write (fun _ _ _ _ => Except.ok 0) 0 (-2) 5 [] =
       ⟨ResultCode.fsError .invalidOffset, false⟩) :=
  ⟨(read_write_validation _ _ _ 0 3 (-1) []).1 (by decide),
   (read_write_validation _ _ _ 0 (-2) 5 []).2 (by decide) (by decide)⟩

/-- C2 counterexample: a storage Read of length 10 whose backend
succeeds reporting 4 bytes writes all 10 allocated bytes back to the
caller's buffer, not the backend-reported 4. -/
theorem storage_read_count_cex :
    (IStorage.Read (fun _ _ => Except.ok [1, 2, 3, 4]) 0 10).status = ResultCode.success ∧
    (IStorage.Read (fun _ _ => Except.ok [1, 2, 3, 4]) 0 10).output =
      some [1, 2, 3, 4, 0, 0, 0, 0, 0, 0] ∧
    ¬ (IStorage.Read (fun _ _ => Except.ok [1, 2, 3, 4]) 0 10).output =
      some [1, 2, 3, 4] := by
  decide

/-- C2 amended: a valid storage Read whose backend succeeds reporting
count bytes allocates exactly length bytes and writes back exactly
length bytes, the backend's count bytes followed by zero fill,
returning success with no scalar results. -/
theorem storage_read_success_reply
    (backend : Int → Int → Except ResultCode (List Nat))
    (offset length : Int) (bytes : List Nat)
    (hoff : 0 ≤ offset) (hlen : 0 ≤ length)
    (hb : backend offset length = Except.ok bytes)
    (hcount : bytes.length ≤ length.toNat) :
    IStorage.Read backend offset length =
      ⟨ResultCode.success,
       some (bytes ++ List.replicate (length.toNat - bytes.length) 0), [], true⟩ ∧
    (bytes ++ List.replicate (length.toNat - bytes.length) 0).length = length.toNat := by
  constructor
  · simp [IStorage.Read, not_lt.2 hlen, not_lt.2 hoff, hb, fillBuffer_of_le hcount]
  · simp only [List.length_append, List.length_replicate]
    omega

/-- C2 amended witness: the counterexample request, evaluated through
the amended statement. -/
theorem storage_read_success_reply_witness :
    IStorage.Read (fun _ _ => Except.ok [1, 2, 3, 4]) 0 10 =
      ⟨ResultCode.success,
       some (([1, 2, 3, 4] : List Nat) ++
         List.replicate ((10 : Int).toNat - ([1, 2, 3, 4] : List Nat).length) 0),
       [], true⟩ ∧
    (([1, 2, 3, 4] : List Nat) ++
      List.replicate ((10 : Int).toNat - ([1, 2, 3, 4] : List Nat).length) 0).length =
      (10 : Int).toNat :=
  storage_read_success_reply _ 0 10 [1, 2, 3, 4] (by decide) (by decide) rfl (by decide)

/-- C4 counterexample: File Read of length 10 against a backend file
holding 4 bytes replies bytes_read = 4 but copies all 10 allocated
bytes to the caller's buffer, not exactly 4. -/
theorem file_read_copy_cex :
    (IFile.Read (fun _ _ => Except.ok [9, 9, 9, 9]) 0 0 10).status = ResultCode.success ∧
    (IFile.Read (fun _ _ => Except.ok [9, 9, 9, 9]) 0 0 10).scalars = [4] ∧
    (IFile.Read (fun _ _ => Except.ok [9, 9, 9, 9]) 0 0 10).output =
      some [9, 9, 9, 9, 0, 0, 0, 0, 0, 0] ∧
    ¬ (IFile.Read (fun _ _ => Except.ok [9, 9, 9, 9]) 0 0 10).output =
      some [9, 9, 9, 9] := by
  decide

/-- C4 amended: a valid file Read whose backend succeeds replies
success with the exact backend-reported count as scalar, which may be
less than the requested length without being an error; the caller's
buffer receives the full length bytes, the backend's count bytes
followed by zero fill. -/
theorem file_read_success_reply
    (backend : Int → Int → Except ResultCode (List Nat))
    (unk : Nat) (offset length : Int) (bytes : List Nat)
    (hoff : 0 ≤ offset) (hlen : 0 ≤ length)
    (hb : backend offset length = Except.ok bytes)
    (hcount : bytes.length ≤ length.toNat) :
    IFile.Read backend unk offset length =
      ⟨ResultCode.success,
       some (bytes ++ List.replicate (length.toNat - bytes.length) 0),
       [bytes.length], true⟩ ∧
    (bytes ++ List.replicate (length.toNat - bytes.length) 0).length = length.toNat := by
  constructor
  · simp [IFile.Read, not_lt.2 hlen, not_lt.2 hoff, hb, fillBuffer_of_le hcount]
  · simp only [List.length_append, List.length_replicate]
    omega

/-- C4 amended witness: Read(offset 0, length 10) against a 4-byte
backend file replies success with bytes_read 4. -/
theorem file_read_success_reply_witness :
    IFile.Read (fun _ _ => Except.ok [5, 6, 7, 8]) 0 0 10 =
      ⟨ResultCode.success,
       some (([5, 6, 7, 8] : List Nat) ++
         List.replicate ((10 : Int).toNat - ([5, 6, 7, 8] : List Nat).length) 0),
       [([5, 6, 7, 8] : List Nat).length], true⟩ ∧
    (([5, 6, 7, 8] : List Nat) ++
      List.replicate ((10 : Int).toNat - ([5, 6, 7, 8] : List Nat).length) 0).length =
      (10 : Int).toNat :=
  file_read_success_reply _ 0 0 10 [5, 6, 7, 8] (by decide) (by decide) rfl (by decide)

/-- C9: File Flush and SetSize invoke the backend, discard its result,
and reply success regardless of what the backend reported. -/
theorem flush_set_size_discard_result :
    ∀ (flushResult setSizeResult : Bool) (size : Nat),
      IFile.Flush flushResult = ⟨ResultCode.success, true⟩ ∧
      IFile.SetSize size setSizeResult = ⟨ResultCode.success, true⟩ :=
  fun _ _ _ => ⟨rfl, rfl⟩

/-- C8: CreateSaveData replies success for arbitrary descriptors and
user id without invoking any backend operation. -/
theorem create_save_data_stub :
    ∀ (saveStruct saveCreateStruct : List Nat) (uid : Nat × Nat),
      FSP_SRV.CreateSaveData saveStruct saveCreateStruct uid =
        ⟨ResultCode.success, false⟩ :=
  fun _ _ _ => rfl

/-- C10: CreateFile never forwards the decoded mode to the backend: the
backend call carries only the zero-terminated path and the size, so two
requests differing only in mode give identical backend calls and
replies. -/
theorem create_file_mode_noninterference :
    ∀ (backend : List Nat → Nat → ResultCode) (buffer : List Nat)
      (size mode1 mode2 : Nat),
      IFileSystem.CreateFile backend buffer mode1 size =
        IFileSystem.CreateFile backend buffer mode2 size ∧
      (IFileSystem.CreateFile backend buffer mode1 size).backendCall =
        some (pathOf buffer, size) :=
  fun _ _ _ _ _ => ⟨rfl, rfl⟩

/-- C3 counterexample: entry records of 2 bytes, a 6-byte output buffer
(room for 3 records) and a backend producing a single record: the
handler replies count 1 but writes all 3 allocated record slots (6
bytes) to the buffer, not exactly the produced record's 2 bytes. -/
theorem directory_read_output_cex :
    (IDirectory.Read 2 6 (fun _ => [[7, 8]]) 0).status = ResultCode.success ∧
    (IDirectory.Read 2 6 (fun _ => [[7, 8]]) 0).requestedMax = 3 ∧
    (IDirectory.Read 2 6 (fun _ => [[7, 8]]) 0).countScalar = 1 ∧
    (IDirectory.Read 2 6 (fun _ => [[7, 8]]) 0).output = some [7, 8, 0, 0, 0, 0] ∧
    ¬ (IDirectory.Read 2 6 (fun _ => [[7, 8]]) 0).output = some [7, 8] := by
  decide

/-- C3 amended: Directory Read asks the backend for at most the number
of whole entry records fitting the output buffer, replies success with
the backend-produced count as scalar (fewer than requested is not an
error), and writes back the full allocated record array: the produced
records packed contiguously followed by zero-filled record slots. -/
theorem directory_read_reply
    (entrySize bufSize : Nat) (backend : Nat → List (List Nat)) (unk : Nat)
    (hn : (backend (bufSize / entrySize)).length ≤ bufSize / entrySize)
    (he : ∀ e ∈ backend (bufSize / entrySize), e.length = entrySize) :
    IDirectory.Read entrySize bufSize backend unk =
      ⟨ResultCode.success,
       some ((backend (bufSize / entrySize)).flatten ++
         List.replicate
           ((bufSize / entrySize - (backend (bufSize / entrySize)).length) * entrySize) 0),
       (backend (bufSize / entrySize)).length,
       bufSize / entrySize⟩ ∧
    ((backend (bufSize / entrySize)).flatten ++
      List.replicate
        ((bufSize / entrySize - (backend (bufSize / entrySize)).length) * entrySize) 0).length =
      (bufSize / entrySize) * entrySize := by
  have hflat : (backend (bufSize / entrySize)).flatten.length =
      (backend (bufSize / entrySize)).length * entrySize := flatten_length_uniform he
  have hle : (backend (bufSize / entrySize)).flatten.length ≤
      (bufSize / entrySize) * entrySize := by
    rw [hflat]
    exact Nat.mul_le_mul_right _ hn
  constructor
  · simp only [IDirectory.Read]
    rw [fillBuffer_of_le hle, hflat, ← Nat.sub_mul]
  · simp only [List.length_append, List.length_replicate, hflat, ← Nat.add_mul]
    rw [Nat.add_sub_cancel' hn]

/-- C3 amended witness: the counterexample request, evaluated through
the amended statement. -/
theorem directory_read_reply_witness :
    IDirectory.Read 2 6 (fun _ => [[7, 8]]) 0 =
      ⟨ResultCode.success,
       some (([[7, 8]] : List (List Nat)).flatten ++ List.replicate ((6 / 2 - 1) * 2) 0),
       1, 6 / 2⟩ ∧
    (([[7, 8]] : List (List Nat)).flatten ++
      List.replicate ((6 / 2 - 1) * 2) 0).length = (6 / 2) * 2 :=
  directory_read_reply 2 6 (fun _ => [[7, 8]]) 0 (by decide) (by decide)

/-- C6: OpenFile forwards a backend failure code unmodified with no
file object attached; only a successful backend open yields a reply
with success and exactly one file object carrying the backend-returned
handle. -/
theorem open_file_reply {F : Type} (backend : List Nat → Nat → Except ResultCode F)
    (buffer : List Nat) (mode : Nat) :
    (∀ code, backend (pathOf buffer) mode = Except.error code →
      IFileSystem.OpenFile backend buffer mode = ⟨code, none⟩) ∧
    (∀ f, backend (pathOf buffer) mode = Except.ok f →
      IFileSystem.OpenFile backend buffer mode = ⟨ResultCode.success, some f⟩) := by
  constructor <;> intro x h <;> simp [IFileSystem.OpenFile, h]

/-- C6 witness: a backend knowing only the path [1, 2]: opening it
succeeds with the handle attached, opening a missing path returns the
backend's code with no object. -/
theorem open_file_reply_witness :
    IFileSystem.OpenFile
      (fun p _ => if p = [1, 2] then Except.ok 37 else Except.error (ResultCode.backendError 9))
      [1, 2, 0, 5] 3 = ⟨ResultCode.success, some 37⟩ ∧
    IFileSystem.OpenFile
      (fun p _ => if p = [1, 2] then Except.ok 37 else Except.error (ResultCode.backendError 9))
      [4, 0] 3 = ⟨ResultCode.backendError 9, none⟩ :=
  ⟨(open_file_reply _ [1, 2, 0, 5] 3).2 37 rfl,
   (open_file_reply _ [4, 0] 3).1 (ResultCode.backendError 9) rfl⟩

/-- Once the romfs cache holds a filesystem, any further sequence of
OpenDataStorageByCurrentProcess calls leaves it unchanged and never
invokes the backend archive-open. -/
theorem runOds_loaded {F S : Type} (openStorage : F → Except ResultCode S) (x : F)
    (rs : List (Except ResultCode F)) :
    runOds openStorage (some x) rs = (some x, 0) := by
  induction rs with
  | nil => rfl
  | cons r t ih =>
    cases hs : openStorage x <;>
      simp [runOds, FSP_SRV.OpenDataStorageByCurrentProcess, FSP_SRV.TryLoadRomFS, hs, ih]

/-- Starting unloaded, the cache ends holding the first successfully
opened filesystem (never overwritten by later results). -/
theorem runOds_state {F S : Type} (openStorage : F → Except ResultCode S)
    (rs : List (Except ResultCode F)) :
    (runOds openStorage none rs).1 = firstOk rs := by
  induction rs with
  | nil => rfl
  | cons r t ih =>
    cases r with
    | error c =>
      simp [runOds, FSP_SRV.OpenDataStorageByCurrentProcess, FSP_SRV.TryLoadRomFS,
        firstOk, ih]
    | ok f =>
      cases hs : openStorage f <;>
        simp [runOds, FSP_SRV.OpenDataStorageByCurrentProcess, FSP_SRV.TryLoadRomFS,
          firstOk, hs, runOds_loaded]

/-- Starting unloaded, the backend archive-open is invoked exactly once
per call up to and including the first successful one. -/
theorem runOds_count {F S : Type} (openStorage : F → Except ResultCode S)
    (rs : List (Except ResultCode F)) :
    (runOds openStorage none rs).2 = opensUntilFirstSuccess rs := by
  induction rs with
  | nil => rfl
  | cons r t ih =>
    cases r with
    | error c =>
      simp [runOds, FSP_SRV.OpenDataStorageByCurrentProcess, FSP_SRV.TryLoadRomFS,
        opensUntilFirstSuccess, ih]
    | ok f =>
      cases hs : openStorage f <;>
        simp [runOds, FSP_SRV.OpenDataStorageByCurrentProcess, FSP_SRV.TryLoadRomFS,
          opensUntilFirstSuccess, hs, runOds_loaded]

/-- C1: over any sequence of OpenDataStorageByCurrentProcess calls the
backend archive-open runs once per call up to and including the first
success and never again; the cache keeps the first successfully opened
filesystem forever, a loaded cache is reused without reopening, a
failed open leaves the cache unloaded with the next call retrying, and
OpenRomStorage re-executes OpenDataStorageByCurrentProcess. -/
theorem romfs_cache_single_open {F S : Type} (openStorage : F → Except ResultCode S)
    (rs : List (Except ResultCode F)) :
    (runOds openStorage none rs).1 = firstOk rs ∧
    (runOds openStorage none rs).2 = opensUntilFirstSuccess rs ∧
    (∀ (x : F) (r : Except ResultCode F),
      (FSP_SRV.OpenDataStorageByCurrentProcess (some x) r openStorage).1 = some x ∧
      (FSP_SRV.OpenDataStorageByCurrentProcess (some x) r openStorage).2.1 = false) ∧
    (∀ code : ResultCode,
      (FSP_SRV.OpenDataStorageByCurrentProcess (none : Option F)
        (Except.error code) openStorage).1 = none ∧
      (FSP_SRV.OpenDataStorageByCurrentProcess (none : Option F)
        (Except.error code) openStorage).2.1 = true) ∧
    (∀ (st : Option F) (r : Except ResultCode F),
      FSP_SRV.OpenRomStorage st r openStorage =
        FSP_SRV.OpenDataStorageByCurrentProcess st r openStorage) := by
  refine ⟨runOds_state openStorage rs, runOds_count openStorage rs, ?_, ?_, ?_⟩
  · intro x r
    cases hs : openStorage x <;>
      simp [FSP_SRV.OpenDataStorageByCurrentProcess, FSP_SRV.TryLoadRomFS, hs]
  · intro code
    simp [FSP_SRV.OpenDataStorageByCurrentProcess, FSP_SRV.TryLoadRomFS]
  · intro st r
    rfl

/-- C7: on a failed backend OpenFileSystem result, MountSdCard and
MountSaveData end in an assertion failure inside the unchecked
ResultVal unwrap and produce no status code at all; only a successful
backend open yields a reply. -/
theorem mount_unwrap_no_status :
    FSP_SRV.MountSdCard (Except.error (ResultCode.backendError 3) : Except ResultCode Nat) =
      MountOutcome.assertionFailure ∧
    FSP_SRV.MountSaveData (Except.error (ResultCode.backendError 3) : Except ResultCode Nat) =
      MountOutcome.assertionFailure ∧
    FSP_SRV.MountSdCard (Except.ok 5 : Except ResultCode Nat) =
      MountOutcome.reply ResultCode.success (some 5) ∧
    FSP_SRV.MountSaveData (Except.ok 5 : Except ResultCode Nat) =
      MountOutcome.reply ResultCode.success (some 5) :=
  ⟨rfl, rfl, rfl, rfl⟩

end FspSrv
